import Mathlib

/-!
# Verification of the auth/session core of the Subscription Tracker

Shallow embedding of the authentication and session-lifecycle core:
the Express route handlers in `backend/src/routes/auth.js`, the
rate-limiter configuration in `backend/src/middleware/rateLimiter.js`
(express-rate-limit ^7.5.0), and the client-side session store in
`frontend/src/store/authStore.ts` together with `frontend/src/lib/api.ts`.

Pure JS helpers that the routes call but whose source files are not part
of the provided tree (`lib/password.js`, `lib/jwt.js`, `middleware/auth.js`)
are either abstracted as oracle parameters (the bcrypt compare/hash and
token-pair generation, over which all theorems quantify) or, where a claim
needs their concrete behaviour, modelled from the specification and marked
as such in their doc comments.
-/

namespace SubTracker

/-- A JSON value, as produced by the route handlers via `res.json`.
Arrays in the auth responses only ever hold strings (validation error
lists), so the array constructor is specialised to string arrays. -/
inductive Json where
  | str (s : String)
  | num (n : Int)
  | jbool (b : Bool)
  | null
  | strArr (xs : List String)
  | obj (fields : List (String × Json))
deriving Repr

mutual

/-- All object keys occurring anywhere in a JSON value. -/
def keyList : Json → List String
  | .obj fs => fieldKeys fs
  | _ => []

/-- All object keys occurring in a field list. -/
def fieldKeys : List (String × Json) → List String
  | [] => []
  | (k, v) :: rest => k :: (keyList v ++ fieldKeys rest)

end

/-- Look up the value of a top-level field of a JSON object. -/
def topField (k : String) : Json → Option Json
  | .obj fs => (fs.find? (fun p => p.1 = k)).map Prod.snd
  | _ => none

/-- A user row of the `users` table (Prisma model `User`, scalar columns). -/
structure UserRec where
  id : String
  email : String
  name : Option String
  password : String
  createdAt : Nat
  updatedAt : Nat
deriving Repr, DecidableEq

/-- The user record store, reached through `prisma.user`. -/
abbrev Db := List UserRec

/-- `prisma.user.findUnique({ where: { email } })`. -/
def findByEmail (db : Db) (email : String) : Option UserRec :=
  db.find? (fun u => u.email = email)

/-- `prisma.user.findUnique({ where: { id } })`. -/
def findById (db : Db) (id : String) : Option UserRec :=
  db.find? (fun u => u.id = id)

/-- `prisma.user.update({ where: { id }, data: { password } })`. -/
def updatePassword (db : Db) (id : String) (newHash : String) (now : Nat) : Db :=
  db.map (fun u => if u.id = id then { u with password := newHash, updatedAt := now } else u)

/-- An HTTP response: status code plus JSON body. -/
structure Response where
  status : Nat
  body : Json
deriving Repr

/-- ASCII lower-casing of one character (JS `toLowerCase` restricted to
the ASCII range the stored emails use). -/
def lowerChar (c : Char) : Char :=
  if 'A' ≤ c && c ≤ 'Z' then Char.ofNat (c.toNat + 32) else c

/-- JS `String.prototype.toLowerCase` on ASCII data. -/
def jsToLower (s : String) : String :=
  ⟨s.toList.map lowerChar⟩

/-- JS `String.prototype.trim`: strip whitespace from both ends. -/
def jsTrim (s : String) : String :=
  ⟨((s.toList.dropWhile Char.isWhitespace).reverse.dropWhile
      Char.isWhitespace).reverse⟩

/-- Split a character list at the first occurrence of `sep`, when any. -/
def splitFirstAt (sep : Char) : List Char → Option (List Char × List Char)
  | [] => none
  | c :: rest =>
    if c = sep then some ([], rest)
    else (splitFirstAt sep rest).map (fun p => (c :: p.1, p.2))

/-- A character matched by `[^\s@]` in the email regex. -/
def emailChar (c : Char) : Bool :=
  !(c.isWhitespace || c = '@')

/-- Scans positions 1.. of the domain: a `'.'` that is not the last
character witnesses the `[^\s@]+\.[^\s@]+$` tail of the regex. -/
def interiorDot : List Char → Bool
  | [] => false
  | [_] => false
  | c :: rest => c = '.' || interiorDot rest

/-- The domain part matches `[^\s@]+\.[^\s@]+$`: some `'.'` occurs at an
index ≥ 1 that is not the last index (all characters being `[^\s@]`). -/
def domainHasDot : List Char → Bool
  | [] => false
  | _ :: rest => interiorDot rest

/-- `isValidEmail` from `routes/auth.js`: the regex
`/^[^\s@]+@[^\s@]+\.[^\s@]+$/` holds iff the string splits at a unique `@`
into a nonempty local part and a domain with an interior dot, with no
whitespace or further `@` anywhere. -/
def isValidEmail (s : String) : Bool :=
  match splitFirstAt '@' s.toList with
  | some (l, d) =>
    !l.isEmpty && l.all emailChar && !d.isEmpty && d.all emailChar && domainHasDot d
  | none => false

/-- JS truthiness of an optional string field (`!data[field]` is true for
a missing field or the empty string). -/
def truthy : Option String → Bool
  | none => false
  | some s => !(s = "")

/-- Result of `validateInput` from `routes/auth.js`: validity flag, the
ordered error list, and the sanitized (trimmed, lower-cased) data. -/
structure Validated where
  isValid : Bool
  errors : List String
  email : Option String
  password : Option String
  name : Option String
deriving Repr, DecidableEq

/-- The required-field test of `validateInput`:
`!data[field] || (typeof data[field] === 'string' && data[field].trim() === '')`,
true for an absent field, an empty string, and a whitespace-only string. -/
def requiredMissing : Option String → Bool
  | none => true
  | some s => s = "" || jsTrim s = ""

/-- `validateInput` from `routes/auth.js`, specialised to the auth bodies:
required fields are `email` then `password` (absent, empty or
whitespace-only fails); the email, when truthy, is trimmed and
lower-cased then format- and length-checked; the name, when present and
truthy, is trimmed and length-checked. Mutation of
`data.email`/`data.name` is reflected in the returned sanitized fields. -/
def validateInput (email password name : Option String) (namePresent : Bool) : Validated :=
  let requiredErrors :=
    (if requiredMissing email then ["email is required"] else []) ++
    (if requiredMissing password then ["password is required"] else [])
  let emailSan := email.map (fun e => jsToLower (jsTrim e))
  let emailErrors :=
    match email, emailSan with
    | some e, some es =>
      if e = "" then []
      else
        (if !isValidEmail es then ["Please provide a valid email address"] else []) ++
        (if es.length > 254 then ["Email address is too long"] else [])
    | _, _ => []
  let nameSan := if namePresent then name.map (fun n => jsTrim n) else name
  let nameErrors :=
    if namePresent then
      match name, nameSan with
      | some n, some ns =>
        if n = "" then []
        else
          (if ns.length > 100 then ["Name must not exceed 100 characters"] else []) ++
          (if ns.length < 1 then ["Name cannot be empty"] else [])
      | _, _ => []
    else []
  let errors := requiredErrors ++ emailErrors ++ nameErrors
  { isValid := errors.isEmpty
    errors := errors
    email := emailSan
    password := password
    name := nameSan }

/-- Modelled from the spec: `lib/jwt.js` is not among the provided sources.
Its `generateTokenPair(userId)` returns the spread fields
`accessToken`, `refreshToken`, `expiresIn` of the HTTP interface (§6). -/
structure TokenPair where
  accessToken : String
  refreshToken : String
  expiresIn : String
deriving Repr, DecidableEq

/-- The fields contributed to a response body by `...tokens`. -/
def tokenFields (tp : TokenPair) : List (String × Json) :=
  [("accessToken", .str tp.accessToken),
   ("refreshToken", .str tp.refreshToken),
   ("expiresIn", .str tp.expiresIn)]

/-- Render an optional string column (`name`) as JSON. -/
def jsonOfOptStr : Option String → Json
  | some s => .str s
  | none => .null

/-- The user object sent in response payloads: the Prisma `select` used by
register and refresh (`id, email, name, createdAt, updatedAt`) and equally
the login handler's rest-spread `{ password: _, ...userWithoutPassword }`,
which keeps exactly the same columns. -/
def selectedUserJson (u : UserRec) : Json :=
  .obj [("id", .str u.id), ("email", .str u.email), ("name", jsonOfOptStr u.name),
        ("createdAt", .num u.createdAt), ("updatedAt", .num u.updatedAt)]

/-- Modelled from the spec: `lib/jwt.js` is not among the provided sources.
`verifyToken` either yields the decoded payload (subject id and type tag)
or throws; the route's catch block distinguishes exactly the messages
`Token has expired` and `Invalid token`, giving three observable outcomes
(§4.3: `Expired` versus the signature/malformed failures). -/
inductive VerifyOutcome where
  | ok (userId : String) (tokenType : String)
  | errExpired
  | errInvalid
deriving Repr, DecidableEq

/-- Request body of `POST /register`. -/
structure RegisterBody where
  email : Option String
  password : Option String
  name : Option String
deriving Repr, DecidableEq

/-- `router.post('/register')` from `routes/auth.js` (the handler after the
registration rate limiter): input validation, password policy, uniqueness
check, hash, create, issue tokens. The hash function, password policy and
token generator are the oracles supplied by `lib/password.js`/`lib/jwt.js`. -/
def registerHandler (db : Db) (hashF : String → String)
    (validatePassword : String → Bool × List String)
    (gen : String → TokenPair) (newId : String) (now : Nat)
    (body : RegisterBody) : Response × Db :=
  let v := validateInput body.email body.password body.name body.name.isSome
  if !v.isValid then
    (⟨400, .obj [("error", .str "Validation failed"),
                 ("message", .str "Please check your input and try again"),
                 ("details", .strArr v.errors)]⟩, db)
  else
    match v.email, v.password with
    | some email, some password =>
      let pv := validatePassword password
      if !pv.1 then
        (⟨400, .obj [("error", .str "Password validation failed"),
                     ("message", .str "Password does not meet security requirements"),
                     ("details", .strArr pv.2)]⟩, db)
      else
        match findByEmail db email with
        | some _ =>
          (⟨400, .obj [("error", .str "User already exists"),
                       ("message", .str "An account with this email address already exists")]⟩, db)
        | none =>
          let hashed := hashF password
          let storedName := match v.name with
            | some n => if n = "" then none else some n
            | none => none
          let u : UserRec := ⟨newId, email, storedName, hashed, now, now⟩
          let tokens := gen u.id
          (⟨201, .obj ([("message", .str "User registered successfully"),
                        ("user", selectedUserJson u)] ++ tokenFields tokens)⟩,
           db ++ [u])
    | _, _ =>
      (⟨400, .obj [("error", .str "Validation failed"),
                   ("message", .str "Please check your input and try again"),
                   ("details", .strArr v.errors)]⟩, db)

/-- Request body of `POST /login`. -/
structure LoginBody where
  email : Option String
  password : Option String
deriving Repr, DecidableEq

/-- The one response the login handler gives for both an unknown email and
a wrong password. -/
def invalidCredentials : Response :=
  ⟨401, .obj [("error", .str "Invalid credentials"),
              ("message", .str "Email or password is incorrect")]⟩

/-- `router.post('/login')` from `routes/auth.js` (the handler after the
auth rate limiter). `cmp` is the `comparePassword` oracle of
`lib/password.js`. -/
def loginHandler (db : Db) (cmp : String → String → Bool)
    (gen : String → TokenPair) (body : LoginBody) : Response :=
  let v := validateInput body.email body.password none false
  if !v.isValid then
    ⟨400, .obj [("error", .str "Validation failed"),
                ("message", .str "Please provide valid email and password"),
                ("details", .strArr v.errors)]⟩
  else
    match v.email, v.password with
    | some email, some password =>
      match findByEmail db email with
      | none => invalidCredentials
      | some u =>
        if !cmp password u.password then invalidCredentials
        else
          ⟨200, .obj ([("message", .str "Login successful"),
                       ("user", selectedUserJson u)] ++ tokenFields (gen u.id))⟩
    | _, _ =>
      ⟨400, .obj [("error", .str "Validation failed"),
                  ("message", .str "Please provide valid email and password"),
                  ("details", .strArr v.errors)]⟩

/-- `router.post('/refresh')` from `routes/auth.js` (the handler after the
auth rate limiter): requires a truthy `refreshToken`, verifies it, requires
type `refresh`, re-confirms the user exists, then issues a new pair. -/
def refreshHandler (db : Db) (verify : String → VerifyOutcome)
    (gen : String → TokenPair) (refreshToken : Option String) : Response :=
  match refreshToken with
  | none =>
    ⟨400, .obj [("error", .str "Validation failed"),
                ("message", .str "Refresh token is required")]⟩
  | some tok =>
    if tok = "" then
      ⟨400, .obj [("error", .str "Validation failed"),
                  ("message", .str "Refresh token is required")]⟩
    else
      match verify tok with
      | .errExpired =>
        ⟨401, .obj [("error", .str "Token expired"),
                    ("message", .str "Refresh token has expired, please login again")]⟩
      | .errInvalid =>
        ⟨401, .obj [("error", .str "Invalid token"),
                    ("message", .str "Invalid refresh token")]⟩
      | .ok uid tokenType =>
        if tokenType ≠ "refresh" then
          ⟨401, .obj [("error", .str "Invalid token"),
                      ("message", .str "Invalid refresh token")]⟩
        else
          match findById db uid with
          | none =>
            ⟨401, .obj [("error", .str "User not found"),
                        ("message", .str "User account no longer exists")]⟩
          | some u =>
            ⟨200, .obj ([("message", .str "Tokens refreshed successfully"),
                         ("user", selectedUserJson u)] ++ tokenFields (gen u.id))⟩

/-- Request body of `PUT /change-password`. -/
structure ChangePasswordBody where
  currentPassword : Option String
  newPassword : Option String
deriving Repr, DecidableEq

/-- `router.put('/change-password')` from `routes/auth.js` (the handler
behind the auth middleware, `userId` being the authenticated subject):
requires both fields, checks the policy on the new password, verifies the
current one against the stored hash, then persists the re-hash.
The handler performs no comparison between `newPassword` and
`currentPassword`. -/
def changePasswordHandler (db : Db) (cmp : String → String → Bool)
    (hashF : String → String) (validatePassword : String → Bool × List String)
    (userId : String) (now : Nat) (body : ChangePasswordBody) : Response × Db :=
  if !truthy body.currentPassword || !truthy body.newPassword then
    (⟨400, .obj [("error", .str "Validation failed"),
                 ("message", .str "Current password and new password are required")]⟩, db)
  else
    match body.currentPassword, body.newPassword with
    | some current, some newPassword =>
      let pv := validatePassword newPassword
      if !pv.1 then
        (⟨400, .obj [("error", .str "Password validation failed"),
                     ("message", .str "New password does not meet security requirements"),
                     ("details", .strArr pv.2)]⟩, db)
      else
        match findById db userId with
        | none =>
          (⟨404, .obj [("error", .str "User not found"),
                       ("message", .str "User account no longer exists")]⟩, db)
        | some u =>
          if !cmp current u.password then
            (⟨401, .obj [("error", .str "Invalid password"),
                         ("message", .str "Current password is incorrect")]⟩, db)
          else
            (⟨200, .obj [("message", .str "Password changed successfully")]⟩,
             updatePassword db userId (hashF newPassword) now)
    | _, _ =>
      (⟨400, .obj [("error", .str "Validation failed"),
                   ("message", .str "Current password and new password are required")]⟩, db)

/-- The user object of `GET /me`, whose Prisma `select` adds the
`_count` sub-object to the sanitized columns. -/
def meUserJson (u : UserRec) (subscriptions notifications : Nat) : Json :=
  .obj [("id", .str u.id), ("email", .str u.email), ("name", jsonOfOptStr u.name),
        ("createdAt", .num u.createdAt), ("updatedAt", .num u.updatedAt),
        ("_count", .obj [("subscriptions", .num subscriptions),
                         ("notifications", .num notifications)])]

/-- `router.get('/me')` from `routes/auth.js` (behind the auth middleware);
`counts` supplies the relation counts the `_count` select reads. -/
def meHandler (db : Db) (counts : String → Nat × Nat) (userId : String) : Response :=
  match findById db userId with
  | none =>
    ⟨404, .obj [("error", .str "User not found"),
                ("message", .str "User account no longer exists")]⟩
  | some u =>
    ⟨200, .obj [("message", .str "User profile retrieved successfully"),
                ("user", meUserJson u (counts u.id).1 (counts u.id).2)]⟩

/-- `router.post('/logout')` from `routes/auth.js`: answers with a fixed
message and the current timestamp and touches no stored state. -/
def logoutHandler (db : Db) (timestamp : String) : Response × Db :=
  (⟨200, .obj [("message", .str "Logout successful"),
               ("timestamp", .str timestamp)]⟩, db)

/-- Modelled from the spec: `middleware/auth.js` is not among the provided
sources. Per §4.3/§6 it verifies the presented Bearer token as an access
token and either passes the subject id on or answers 401 with an
error/message payload. -/
def authMiddleware (verify : String → VerifyOutcome)
    (bearer : Option String) : Except Response String :=
  match bearer with
  | none =>
    .error ⟨401, .obj [("error", .str "Unauthorized"),
                       ("message", .str "Access token is required")]⟩
  | some tok =>
    match verify tok with
    | .ok uid tokenType =>
      if tokenType = "access" then .ok uid
      else .error ⟨401, .obj [("error", .str "Invalid token"),
                              ("message", .str "Invalid access token")]⟩
    | .errExpired =>
      .error ⟨401, .obj [("error", .str "Token expired"),
                         ("message", .str "Access token has expired")]⟩
    | .errInvalid =>
      .error ⟨401, .obj [("error", .str "Invalid token"),
                         ("message", .str "Invalid access token")]⟩

/-- `GET /me` behind the auth middleware. -/
def meOperation (db : Db) (verify : String → VerifyOutcome)
    (counts : String → Nat × Nat) (bearer : Option String) : Response :=
  match authMiddleware verify bearer with
  | .error r => r
  | .ok uid => meHandler db counts uid

/-- `PUT /change-password` behind the auth middleware. -/
def changePasswordOperation (db : Db) (verify : String → VerifyOutcome)
    (cmp : String → String → Bool) (hashF : String → String)
    (validatePassword : String → Bool × List String) (now : Nat)
    (bearer : Option String) (body : ChangePasswordBody) : Response × Db :=
  match authMiddleware verify bearer with
  | .error r => (r, db)
  | .ok uid => changePasswordHandler db cmp hashF validatePassword uid now body

/-- `POST /logout` behind the auth middleware. -/
def logoutOperation (db : Db) (verify : String → VerifyOutcome)
    (timestamp : String) (bearer : Option String) : Response × Db :=
  match authMiddleware verify bearer with
  | .error r => (r, db)
  | .ok _ => logoutHandler db timestamp

/-- Configuration of an express-rate-limit instance: the `windowMs` and
`max` options set in `middleware/rateLimiter.js`. -/
structure LimiterConfig where
  maxHits : Nat
  windowMs : Nat
deriving Repr, DecidableEq

/-- `authLimiter`: 5 attempts per 15 minutes. -/
def authLimiterConfig : LimiterConfig := ⟨5, 15 * 60 * 1000⟩

/-- `registrationLimiter`: 3 attempts per hour. -/
def registrationLimiterConfig : LimiterConfig := ⟨3, 60 * 60 * 1000⟩

/-- A per-key counter of the MemoryStore of express-rate-limit 7:
hits so far and the instant the key's window ends. -/
structure Counter where
  totalHits : Nat
  resetTime : Nat
deriving Repr, DecidableEq

/-- The MemoryStore contents, keyed by the generated request key. -/
abbrev LimiterState := List (String × Counter)

/-- Read a key's counter. -/
def lookupCounter (st : LimiterState) (key : String) : Option Counter :=
  (st.find? (fun p => p.1 = key)).map Prod.snd

/-- Replace (or create) a key's counter, as `Map.set` does. -/
def setCounter (st : LimiterState) (key : String) (c : Counter) : LimiterState :=
  (key, c) :: st.eraseP (fun p => p.1 = key)

/-- One `increment` of express-rate-limit 7's MemoryStore: a key whose
window has ended (or that is fresh) restarts at one hit with a new window
of `windowMs`; otherwise its hit count grows by one. Returns the hit
count the middleware compares against `max`. -/
def limiterHit (cfg : LimiterConfig) (st : LimiterState) (key : String)
    (now : Nat) : Nat × LimiterState :=
  match lookupCounter st key with
  | some c =>
    if now < c.resetTime then
      (c.totalHits + 1, setCounter st key ⟨c.totalHits + 1, c.resetTime⟩)
    else
      (1, setCounter st key ⟨1, now + cfg.windowMs⟩)
  | none => (1, setCounter st key ⟨1, now + cfg.windowMs⟩)

/-- The block message of `authLimiter`. -/
def authLimiterMessage : String :=
  "Too many authentication attempts, please try again later."

/-- The block message of `registrationLimiter`. -/
def registrationLimiterMessage : String :=
  "Too many registration attempts, please try again later."

/-- An incoming HTTP request as the rate limiters see it: its originating
network address and, when the auth middleware has run before the limiter,
the authenticated subject (`req.user?.id`). -/
structure NetRequest where
  ip : String
  userId : Option String
deriving Repr, DecidableEq

/-- The default key generator of express-rate-limit: the request's
network address. -/
def defaultKeyGenerator (req : NetRequest) : String := req.ip

/-- `authLimiter` configures no `keyGenerator`, so it keys by the library
default. Applied to `POST /login` and `POST /refresh`. -/
def authLimiterKey (req : NetRequest) : String := defaultKeyGenerator req

/-- `registrationLimiter` configures no `keyGenerator` either. -/
def registrationLimiterKey (req : NetRequest) : String := defaultKeyGenerator req

/-- `apiLimiter`'s configured generator, `req.user?.id || req.ip`
(the general API limiter, not the auth family). -/
def apiLimiterKey (req : NetRequest) : String :=
  match req.userId with
  | some uid => if uid = "" then req.ip else uid
  | none => req.ip

/-- The keying policy the spec claims for authenticated-context actions,
stated from the spec's words for comparison with the configured
generators: the subject id when one is available, the network address
otherwise. -/
def specClaimedAuthKey (req : NetRequest) : String :=
  match req.userId with
  | some uid => uid
  | none => req.ip

/-- `POST /login` as mounted: `authLimiter` in front of the handler.
A blocked request gets status 429 with the limiter's message and the
handler never runs. -/
def loginRequest (st : LimiterState) (db : Db) (cmp : String → String → Bool)
    (gen : String → TokenPair) (req : NetRequest) (now : Nat)
    (body : LoginBody) : Response × LimiterState :=
  let hit := limiterHit authLimiterConfig st (authLimiterKey req) now
  if hit.1 > authLimiterConfig.maxHits then
    (⟨429, .str authLimiterMessage⟩, hit.2)
  else
    (loginHandler db cmp gen body, hit.2)

/-- `POST /refresh` as mounted: `authLimiter` in front of the handler. -/
def refreshRequest (st : LimiterState) (db : Db)
    (verify : String → VerifyOutcome) (gen : String → TokenPair)
    (req : NetRequest) (now : Nat) (refreshToken : Option String) :
    Response × LimiterState :=
  let hit := limiterHit authLimiterConfig st (authLimiterKey req) now
  if hit.1 > authLimiterConfig.maxHits then
    (⟨429, .str authLimiterMessage⟩, hit.2)
  else
    (refreshHandler db verify gen refreshToken, hit.2)

/-- `POST /register` as mounted: `registrationLimiter` in front of the
handler. -/
def registerRequest (st : LimiterState) (db : Db) (hashF : String → String)
    (validatePassword : String → Bool × List String) (gen : String → TokenPair)
    (newId : String) (req : NetRequest) (now : Nat) (body : RegisterBody) :
    Response × LimiterState × Db :=
  let hit := limiterHit registrationLimiterConfig st (registrationLimiterKey req) now
  if hit.1 > registrationLimiterConfig.maxHits then
    (⟨429, .str registrationLimiterMessage⟩, hit.2, db)
  else
    let hd := registerHandler db hashF validatePassword gen newId now body
    (hd.1, hit.2, hd.2)

/-- The limiter state left after a sequence of attempts for one key at the
given instants (each attempt increments regardless of its outcome, so the
handler plays no part in this state). -/
def limiterAfter (cfg : LimiterConfig) (key : String) (times : List Nat)
    (st : LimiterState) : LimiterState :=
  times.foldl (fun s t => (limiterHit cfg s key t).2) st

/-- Modelled from the spec: `lib/password.js` is not among the provided
sources. §4.1 prescribes minimum length 8, at least one uppercase letter,
one lowercase letter, one digit, one symbol from a fixed punctuation set,
and a case-insensitive denylist of common weak passwords (§8 scenario D
names `password123` as a denylisted entry). -/
def specPunctuation : List Char := "!@#$%^&*()_+-=[]\x7b\x7d|;:,.<>?".toList

/-- Modelled from the spec: the weak-password denylist of §4.1/§8. -/
def weakPasswordDenylist : List String :=
  ["password", "password123", "12345678", "qwerty123", "letmein"]

/-- Modelled from the spec: `validatePassword` of the missing
`lib/password.js`, per §4.1 — pass/fail plus the ordered violated-rule
list. -/
def validatePasswordSpec (p : String) : Bool × List String :=
  let errors :=
    (if p.length < 8 then ["Password must be at least 8 characters long"] else []) ++
    (if !(p.toList.any Char.isUpper) then ["Password must contain an uppercase letter"] else []) ++
    (if !(p.toList.any Char.isLower) then ["Password must contain a lowercase letter"] else []) ++
    (if !(p.toList.any Char.isDigit) then ["Password must contain a digit"] else []) ++
    (if !(p.toList.any (fun c => specPunctuation.contains c)) then
      ["Password must contain a special character"] else []) ++
    (if weakPasswordDenylist.contains (jsToLower p) then ["Password is too common"] else [])
  (errors.isEmpty, errors)

/-- The `User` shape of `lib/api.ts` as the client stores it. -/
structure UserView where
  id : String
  email : String
  name : Option String
  createdAt : String
  updatedAt : String
deriving Repr, DecidableEq

/-- The Zustand auth store state of `store/authStore.ts`. -/
structure ClientAuthState where
  user : Option UserView
  isAuthenticated : Bool
  isLoading : Bool
  error : Option String
deriving Repr, DecidableEq

/-- The state every terminal failure/logout path sets. -/
def clearedAuthState : ClientAuthState :=
  { user := none, isAuthenticated := false, isLoading := false, error := none }

/-- The two localStorage slots of `lib/api.ts` (`authToken`,
`refreshToken`). -/
structure ClientStorage where
  authToken : Option String
  refreshToken : Option String
deriving Repr, DecidableEq

/-- Outcome of one `GET /auth/me` round trip as `getCurrentUser` sees it. -/
inductive MeOutcome where
  | ok (u : UserView)
  | fail (msg : String)
deriving Repr, DecidableEq

/-- Outcome of the `POST /auth/refresh` round trip as
`authApi.refreshToken` sees it: on success the response's two tokens. -/
inductive RefreshOutcome where
  | ok (accessToken : String) (refreshToken : String)
  | fail (msg : String)
deriving Repr, DecidableEq

/-- What a bootstrap run produced: the final store state, the final
storage, how many HTTP round trips were made, and how many times the
refresh flow was attempted. -/
structure InitResult where
  state : ClientAuthState
  storage : ClientStorage
  networkCalls : Nat
  refreshAttempts : Nat
deriving Repr, DecidableEq

/-- `initialize` of `store/authStore.ts` on the client: a falsy stored
access token (`if (!token)` — absent or the empty string) ends
unauthenticated at once without touching storage; otherwise one profile
fetch, on its failure one refresh attempt (`authApi.refreshToken` throws
before any network call when no refresh token is stored), on refresh
success a single retried profile fetch, and on any failure of the refresh
path the state is cleared and both stored tokens are removed. -/
def clientInitialize (storage : ClientStorage) (me1 : MeOutcome)
    (refresh : RefreshOutcome) (me2 : MeOutcome) : InitResult :=
  match storage.authToken with
  | none => ⟨clearedAuthState, storage, 0, 0⟩
  | some tok =>
    if tok = "" then ⟨clearedAuthState, storage, 0, 0⟩
    else
      match me1 with
      | .ok u => ⟨⟨some u, true, false, none⟩, storage, 1, 0⟩
      | .fail _ =>
        match storage.refreshToken with
        | none => ⟨clearedAuthState, ⟨none, none⟩, 1, 1⟩
        | some _ =>
          match refresh with
          | .fail _ => ⟨clearedAuthState, ⟨none, none⟩, 2, 1⟩
          | .ok newAccess newRefresh =>
            match me2 with
            | .ok u => ⟨⟨some u, true, false, none⟩, ⟨some newAccess, some newRefresh⟩, 3, 1⟩
            | .fail _ => ⟨clearedAuthState, ⟨none, none⟩, 3, 1⟩

/-- Outcome of the `POST /auth/logout` round trip. -/
inductive LogoutOutcome where
  | ok
  | fail (msg : String)
deriving Repr, DecidableEq

/-- `authApi.logout` of `lib/api.ts`: whether the request succeeds or
throws, both stored tokens are removed; a failure is rethrown (second
component: did it throw). -/
def apiLogout (outcome : LogoutOutcome) : ClientStorage × Bool :=
  (⟨none, none⟩, match outcome with | .ok => false | .fail _ => true)

/-- `logout` of `store/authStore.ts`: awaits `authApi.logout`, catches
(and only logs) any error, and always clears the auth state. The third
component records whether the store call throws to its caller. -/
def storeLogout (outcome : LogoutOutcome) : ClientAuthState × ClientStorage × Bool :=
  let api := apiLogout outcome
  (clearedAuthState, api.1, false)

/-! ## Concrete oracles used to instantiate the quantified theorems -/

/-- A concrete verification oracle: a hash verifies exactly the password
it tags. -/
def cmpDemo (p h : String) : Bool := h = "bcrypt$" ++ p

/-- A concrete re-hash oracle, distinguishable from `cmpDemo`'s tags. -/
def hashDemo (p : String) : String := "rehash$" ++ p

/-- A concrete token-pair generator. -/
def genDemo (_uid : String) : TokenPair := ⟨"newAccess", "newRefresh", "7d"⟩

/-- A concrete stored user. -/
def aliceDemo : UserRec :=
  ⟨"u1", "alice@example.com", none, "bcrypt$Str0ng!Pass1", 0, 0⟩

/-! ## C10 — refresh with a missing or empty token -/

/-- C10: a `POST /auth/refresh` body whose `refreshToken` is absent or
empty gets the 400 validation-failed response, not any 401 token error. -/
theorem refresh_missing_token_validation_error
    (db : Db) (verify : String → VerifyOutcome) (gen : String → TokenPair)
    (refreshToken : Option String)
    (h : refreshToken = none ∨ refreshToken = some "") :
    refreshHandler db verify gen refreshToken =
      ⟨400, .obj [("error", .str "Validation failed"),
                  ("message", .str "Refresh token is required")]⟩ ∧
    (refreshHandler db verify gen refreshToken).status = 400 := by
  rcases h with h | h <;> subst h <;> exact ⟨rfl, rfl⟩

/-- C10 witness: the theorem at a concrete store and oracle, for both an
absent and an empty token field. -/
theorem refresh_missing_token_validation_error_witness :
    refreshHandler [aliceDemo] (fun _ => .errInvalid) genDemo none =
      ⟨400, .obj [("error", .str "Validation failed"),
                  ("message", .str "Refresh token is required")]⟩ ∧
    refreshHandler [aliceDemo] (fun _ => .errInvalid) genDemo (some "") =
      ⟨400, .obj [("error", .str "Validation failed"),
                  ("message", .str "Refresh token is required")]⟩ :=
  ⟨(refresh_missing_token_validation_error [aliceDemo] (fun _ => .errInvalid)
      genDemo none (Or.inl rfl)).1,
   (refresh_missing_token_validation_error [aliceDemo] (fun _ => .errInvalid)
      genDemo (some "") (Or.inr rfl)).1⟩

/-! ## C7 — refresh with a valid token of the wrong type -/

/-- C7: a `POST /auth/refresh` whose `refreshToken` field verifies as a
token of type `access` gets 401 Invalid token and the body carries no
token fields. -/
theorem refresh_wrong_type_rejected
    (db : Db) (verify : String → VerifyOutcome) (gen : String → TokenPair)
    (tok uid : String) (hne : tok ≠ "")
    (hv : verify tok = .ok uid "access") :
    refreshHandler db verify gen (some tok) =
      ⟨401, .obj [("error", .str "Invalid token"),
                  ("message", .str "Invalid refresh token")]⟩ ∧
    keyList (refreshHandler db verify gen (some tok)).body = ["error", "message"] := by
  have h1 : refreshHandler db verify gen (some tok) =
      ⟨401, .obj [("error", .str "Invalid token"),
                  ("message", .str "Invalid refresh token")]⟩ := by
    simp only [refreshHandler]
    rw [if_neg hne, hv]
    simp
  exact ⟨h1, by rw [h1]; rfl⟩

/-- C7 witness: a concrete access-type token presented to refresh. -/
theorem refresh_wrong_type_rejected_witness :
    refreshHandler [aliceDemo] (fun _ => .ok "u1" "access") genDemo (some "tok.acc") =
      ⟨401, .obj [("error", .str "Invalid token"),
                  ("message", .str "Invalid refresh token")]⟩ :=
  (refresh_wrong_type_rejected [aliceDemo] (fun _ => .ok "u1" "access") genDemo
    "tok.acc" "u1" (by decide) rfl).1

/-! ## C3 — refresh whose subject was deleted -/

/-- C3 counterexample: a valid refresh-type token whose subject is not in
the store is answered with the `User not found` error payload, which is a
different error kind from `Invalid token`. -/
theorem refresh_deleted_user_error_kind_counterexample :
    refreshHandler [] (fun _ => .ok "u1" "refresh") genDemo (some "tok.ref") =
      ⟨401, .obj [("error", .str "User not found"),
                  ("message", .str "User account no longer exists")]⟩ ∧
    ("User not found" : String) ≠ "Invalid token" :=
  ⟨rfl, by decide⟩

/-- C3 amended: a refresh token that verifies with type `refresh` but
whose subject id has no User record fails with 401 and the
`User not found` payload (distinct from the InvalidToken kind), and the
response carries no token fields. -/
theorem refresh_deleted_user_not_found
    (db : Db) (verify : String → VerifyOutcome) (gen : String → TokenPair)
    (tok uid : String) (hne : tok ≠ "")
    (hv : verify tok = .ok uid "refresh")
    (hu : findById db uid = none) :
    refreshHandler db verify gen (some tok) =
      ⟨401, .obj [("error", .str "User not found"),
                  ("message", .str "User account no longer exists")]⟩ ∧
    keyList (refreshHandler db verify gen (some tok)).body = ["error", "message"] := by
  have h1 : refreshHandler db verify gen (some tok) =
      ⟨401, .obj [("error", .str "User not found"),
                  ("message", .str "User account no longer exists")]⟩ := by
    simp only [refreshHandler]
    rw [if_neg hne, hv]
    simp [hu]
  exact ⟨h1, by rw [h1]; rfl⟩

/-- C3 witness: the amended theorem at an empty store. -/
theorem refresh_deleted_user_not_found_witness :
    refreshHandler [] (fun _ => .ok "u1" "refresh") genDemo (some "tok.ref") =
      ⟨401, .obj [("error", .str "User not found"),
                  ("message", .str "User account no longer exists")]⟩ :=
  (refresh_deleted_user_not_found [] (fun _ => .ok "u1" "refresh") genDemo
    "tok.ref" "u1" (by decide) rfl rfl).1

/-! ## C4 — keying of the login-family limiter -/

/-- C4 counterexample: for a request whose subject id is available, the
configured login-family key generator still keys by the network address,
not by the subject id the spec's policy would pick. -/
theorem authLimiter_key_counterexample :
    authLimiterKey ⟨"203.0.113.9", some "user-1"⟩ = "203.0.113.9" ∧
    specClaimedAuthKey ⟨"203.0.113.9", some "user-1"⟩ = "user-1" ∧
    authLimiterKey ⟨"203.0.113.9", some "user-1"⟩ ≠
      specClaimedAuthKey ⟨"203.0.113.9", some "user-1"⟩ := by
  refine ⟨rfl, rfl, ?_⟩
  decide

/-- C4 amended: the login-family limiter (login and token refresh) keys
every attempt by the originating network address, never by the subject id;
only the general `apiLimiter` keys by subject id when one is available. -/
theorem authLimiter_keys_by_network_address (req : NetRequest) :
    authLimiterKey req = req.ip ∧
    registrationLimiterKey req = req.ip ∧
    (req.userId = none → apiLimiterKey req = req.ip) :=
  ⟨rfl, rfl, fun h => by simp [apiLimiterKey, h]⟩

/-- C4 witness: the amended theorem at a concrete request carrying a
subject id, and at one carrying none. -/
theorem authLimiter_keys_by_network_address_witness :
    authLimiterKey ⟨"198.51.100.7", some "user-9"⟩ = "198.51.100.7" ∧
    apiLimiterKey ⟨"198.51.100.7", none⟩ = "198.51.100.7" :=
  ⟨(authLimiter_keys_by_network_address ⟨"198.51.100.7", some "user-9"⟩).1,
   (authLimiter_keys_by_network_address ⟨"198.51.100.7", none⟩).2.2 rfl⟩

/-! ## C2 — change-password and equal new/current passwords -/

/-- C2 counterexample: with `newPassword` equal to the verified
`currentPassword` and the policy satisfied, the handler does not reject:
it answers 200 and persists a different stored hash. -/
theorem changePassword_equal_passwords_accepted_counterexample :
    (changePasswordHandler [aliceDemo] cmpDemo hashDemo validatePasswordSpec
        "u1" 5 ⟨some "Str0ng!Pass1", some "Str0ng!Pass1"⟩).1.status = 200 ∧
    (changePasswordHandler [aliceDemo] cmpDemo hashDemo validatePasswordSpec
        "u1" 5 ⟨some "Str0ng!Pass1", some "Str0ng!Pass1"⟩).2 =
      [⟨"u1", "alice@example.com", none, "rehash$Str0ng!Pass1", 0, 5⟩] ∧
    cmpDemo "Str0ng!Pass1" aliceDemo.password = true ∧
    (validatePasswordSpec "Str0ng!Pass1").1 = true ∧
    ("rehash$Str0ng!Pass1" : String) ≠ aliceDemo.password := by
  refine ⟨rfl, rfl, rfl, rfl, ?_⟩
  decide

/-- C2 amended: whenever `currentPassword` verifies against the stored
hash and `newPassword` satisfies the policy, the new hash is persisted and
the response carries no tokens — even when `newPassword` equals
`currentPassword`; no equality rejection is performed. -/
theorem changePassword_rehash_persisted
    (db : Db) (cmp : String → String → Bool) (hashF : String → String)
    (vp : String → Bool × List String) (uid : String) (now : Nat)
    (current newPassword : String) (u : UserRec)
    (hcne : current ≠ "") (hnne : newPassword ≠ "")
    (hpv : (vp newPassword).1 = true)
    (hu : findById db uid = some u)
    (hcmp : cmp current u.password = true) :
    changePasswordHandler db cmp hashF vp uid now ⟨some current, some newPassword⟩ =
      (⟨200, .obj [("message", .str "Password changed successfully")]⟩,
       updatePassword db uid (hashF newPassword) now) ∧
    keyList (changePasswordHandler db cmp hashF vp uid now
      ⟨some current, some newPassword⟩).1.body = ["message"] := by
  have h1 : changePasswordHandler db cmp hashF vp uid now
      ⟨some current, some newPassword⟩ =
      (⟨200, .obj [("message", .str "Password changed successfully")]⟩,
       updatePassword db uid (hashF newPassword) now) := by
    simp only [changePasswordHandler, truthy]
    rw [if_neg]
    · simp [hu, hpv, hcmp]
    · simp [hcne, hnne]
  exact ⟨h1, by rw [h1]; rfl⟩

/-- C2 witness: the amended theorem at a concrete store, with a new
password different from the current one. -/
theorem changePassword_rehash_persisted_witness :
    changePasswordHandler [aliceDemo] cmpDemo hashDemo validatePasswordSpec
      "u1" 7 ⟨some "Str0ng!Pass1", some "Fresh3r!Pass"⟩ =
      (⟨200, .obj [("message", .str "Password changed successfully")]⟩,
       updatePassword [aliceDemo] "u1" (hashDemo "Fresh3r!Pass") 7) :=
  (changePassword_rehash_persisted [aliceDemo] cmpDemo hashDemo
    validatePasswordSpec "u1" 7 "Str0ng!Pass1" "Fresh3r!Pass" aliceDemo
    (by decide) (by decide) (by decide) rfl (by decide)).1

/-! ## C5 — unknown email and wrong password are indistinguishable -/

/-- C5: a login whose normalized email matches no User and a login whose
email matches a User but whose password fails verification produce the
same response: 401 with the one `Invalid credentials` payload. -/
theorem login_failure_indistinguishable
    (db : Db) (cmp : String → String → Bool) (gen : String → TokenPair)
    (e1 p1 e2 p2 : String) (u : UserRec)
    (hv1 : (validateInput (some e1) (some p1) none false).isValid = true)
    (hv2 : (validateInput (some e2) (some p2) none false).isValid = true)
    (h1 : findByEmail db (jsToLower (jsTrim e1)) = none)
    (h2 : findByEmail db (jsToLower (jsTrim e2)) = some u)
    (hp : cmp p2 u.password = false) :
    loginHandler db cmp gen ⟨some e1, some p1⟩ = invalidCredentials ∧
    loginHandler db cmp gen ⟨some e2, some p2⟩ = invalidCredentials ∧
    invalidCredentials =
      ⟨401, .obj [("error", .str "Invalid credentials"),
                  ("message", .str "Email or password is incorrect")]⟩ := by
  have he1 : (validateInput (some e1) (some p1) none false).email =
      some (jsToLower (jsTrim e1)) := rfl
  have he2 : (validateInput (some e2) (some p2) none false).email =
      some (jsToLower (jsTrim e2)) := rfl
  have hq1 : (validateInput (some e1) (some p1) none false).password = some p1 := rfl
  have hq2 : (validateInput (some e2) (some p2) none false).password = some p2 := rfl
  refine ⟨?_, ?_, rfl⟩
  · simp only [loginHandler]
    rw [hv1, he1, hq1]
    simp [h1]
  · simp only [loginHandler]
    rw [hv2, he2, hq2]
    simp [h2, hp]

/-- C5 witness: an unknown email and a wrong password against a concrete
store give the identical `Invalid credentials` response. -/
theorem login_failure_indistinguishable_witness :
    loginHandler [aliceDemo] cmpDemo genDemo
      ⟨some "bob@example.com", some "anything1"⟩ = invalidCredentials ∧
    loginHandler [aliceDemo] cmpDemo genDemo
      ⟨some "alice@example.com", some "WrongPass1!"⟩ = invalidCredentials := by
  have h := login_failure_indistinguishable [aliceDemo] cmpDemo genDemo
    "bob@example.com" "anything1" "alice@example.com" "WrongPass1!" aliceDemo
    (by decide) (by decide) (by decide) (by decide) (by decide)
  exact ⟨h.1, h.2.1⟩

/-! ## C8 — client bootstrap -/

/-- C8: the client bootstrap makes no network call and ends
unauthenticated when no (truthy) access token is stored; it attempts the
refresh flow at most once; and any failure of the refresh path discards
both stored tokens and ends unauthenticated. -/
theorem client_initialize_bootstrap
    (storage : ClientStorage) (me1 : MeOutcome) (refresh : RefreshOutcome)
    (me2 : MeOutcome) :
    (truthy storage.authToken = false →
      clientInitialize storage me1 refresh me2 = ⟨clearedAuthState, storage, 0, 0⟩) ∧
    (clientInitialize storage me1 refresh me2).refreshAttempts ≤ 1 ∧
    (∀ tok msg, storage.authToken = some tok → tok ≠ "" → me1 = .fail msg →
      (storage.refreshToken = none ∨ (∃ m, refresh = .fail m)) →
      (clientInitialize storage me1 refresh me2).state = clearedAuthState ∧
      (clientInitialize storage me1 refresh me2).storage = ⟨none, none⟩) := by
  refine ⟨fun h => ?_, ?_, ?_⟩
  · rcases storage with ⟨at1, rt1⟩
    rcases at1 with _ | t
    · rfl
    · simp only [truthy] at h
      simp at h
      subst h
      rfl
  · rcases storage with ⟨at1, rt1⟩
    rcases at1 with _ | t
    · simp [clientInitialize]
    · by_cases ht : t = ""
      · subst ht
        simp [clientInitialize]
      · cases me1 <;> cases rt1 <;> cases refresh <;> cases me2 <;>
          simp [clientInitialize, ht]
  · rintro tok msg hat hne hme1 hfail
    rcases storage with ⟨at1, rt1⟩
    simp only at hat
    subst hat hme1
    rcases hfail with hrt | ⟨m, hr⟩
    · simp only at hrt
      subst hrt
      simp [clientInitialize, hne]
    · subst hr
      cases rt1 <;> simp [clientInitialize, hne]

/-- C8 witness: a stored access token whose profile fetch fails and whose
refresh fails ends unauthenticated with both tokens removed. -/
theorem client_initialize_bootstrap_witness :
    (clientInitialize ⟨some "acc", some "ref"⟩ (.fail "401") (.fail "401")
        (.fail "401")).state = clearedAuthState ∧
    (clientInitialize ⟨some "acc", some "ref"⟩ (.fail "401") (.fail "401")
        (.fail "401")).storage = ⟨none, none⟩ ∧
    (clientInitialize ⟨some "acc", some "ref"⟩ (.fail "401") (.fail "401")
        (.fail "401")).refreshAttempts ≤ 1 :=
  ⟨((client_initialize_bootstrap ⟨some "acc", some "ref"⟩ (.fail "401")
      (.fail "401") (.fail "401")).2.2 "acc" "401" rfl (by decide) rfl
      (Or.inr ⟨"401", rfl⟩)).1,
   ((client_initialize_bootstrap ⟨some "acc", some "ref"⟩ (.fail "401")
      (.fail "401") (.fail "401")).2.2 "acc" "401" rfl (by decide) rfl
      (Or.inr ⟨"401", rfl⟩)).2,
   (client_initialize_bootstrap ⟨some "acc", some "ref"⟩ (.fail "401")
      (.fail "401") (.fail "401")).2.1⟩

/-! ## C9 — logout idempotence and advisoriness -/

/-- C9: a client logout never throws, always ends in the cleared
unauthenticated state with both stored tokens removed (so repeating it
gives the identical result), and the server logout endpoint leaves the
record store untouched. -/
theorem logout_idempotent_and_advisory
    (outcome outcome2 : LogoutOutcome) (db : Db) (timestamp : String) :
    storeLogout outcome = (clearedAuthState, ⟨none, none⟩, false) ∧
    storeLogout outcome2 = storeLogout outcome ∧
    (logoutHandler db timestamp).2 = db := by
  refine ⟨?_, ?_, rfl⟩
  · cases outcome <;> rfl
  · cases outcome <;> cases outcome2 <;> rfl

/-! ## C1 — no password hash in any response payload -/

theorem keyList_obj (fs : List (String × Json)) : keyList (.obj fs) = fieldKeys fs := rfl

theorem keyList_str (s : String) : keyList (.str s) = [] := rfl

theorem keyList_num (n : Int) : keyList (.num n) = [] := rfl

theorem keyList_jbool (b : Bool) : keyList (.jbool b) = [] := rfl

theorem keyList_null : keyList .null = [] := rfl

theorem keyList_strArr (xs : List String) : keyList (.strArr xs) = [] := rfl

theorem keyList_jsonOfOptStr (o : Option String) : keyList (jsonOfOptStr o) = [] := by
  cases o <;> rfl

theorem keyList_selectedUser (u : UserRec) :
    keyList (selectedUserJson u) = ["id", "email", "name", "createdAt", "updatedAt"] := by
  simp [selectedUserJson, keyList, fieldKeys, keyList_jsonOfOptStr]

theorem keyList_meUser (u : UserRec) (a b : Nat) :
    keyList (meUserJson u a b) =
      ["id", "email", "name", "createdAt", "updatedAt",
       "_count", "subscriptions", "notifications"] := by
  simp [meUserJson, keyList, fieldKeys, keyList_jsonOfOptStr]

/-- Every rejection of the auth middleware carries only an error and a
message field. -/
theorem authMiddleware_error_keyList (verify : String → VerifyOutcome)
    (bearer : Option String) (r : Response)
    (h : authMiddleware verify bearer = .error r) :
    keyList r.body = ["error", "message"] := by
  unfold authMiddleware at h
  rcases bearer with _ | tok
  · simp only [Except.error.injEq] at h
    subst h; rfl
  · rcases hv : verify tok with ⟨uid, ty⟩ | _ | _ <;> simp only [hv] at h
    · by_cases hty : ty = "access"
      · simp [hty] at h
      · simp only [if_neg hty, Except.error.injEq] at h
        subst h; rfl
    · simp only [Except.error.injEq] at h
      subst h; rfl
    · simp only [Except.error.injEq] at h
      subst h; rfl

/-- C1: across all six mounted auth operations — register, login, me,
refresh, change-password, logout — and for every store, oracle, request
and outcome (success, every error branch, middleware rejection and
rate-limit block), the response body never carries a `password` key. -/
theorem no_password_in_response_payloads :
    (∀ st db hashF vp gen newId req now body,
      "password" ∉ keyList (registerRequest st db hashF vp gen newId req now body).1.body) ∧
    (∀ st db cmp gen req now body,
      "password" ∉ keyList (loginRequest st db cmp gen req now body).1.body) ∧
    (∀ db verify counts bearer,
      "password" ∉ keyList (meOperation db verify counts bearer).body) ∧
    (∀ st db verify gen req now refreshToken,
      "password" ∉ keyList (refreshRequest st db verify gen req now refreshToken).1.body) ∧
    (∀ db verify cmp hashF vp now bearer body,
      "password" ∉ keyList (changePasswordOperation db verify cmp hashF vp now bearer body).1.body) ∧
    (∀ db verify timestamp bearer,
      "password" ∉ keyList (logoutOperation db verify timestamp bearer).1.body) := by
  refine ⟨?_, ?_, ?_, ?_, ?_, ?_⟩
  · intro st db hashF vp gen newId req now body
    simp only [registerRequest, registerHandler]
    repeat' split
    all_goals
      simp [keyList_obj, keyList_str, keyList_num, keyList_jbool, keyList_null, keyList_strArr, fieldKeys, tokenFields, keyList_selectedUser, keyList_jsonOfOptStr]
  · intro st db cmp gen req now body
    simp only [loginRequest, loginHandler, invalidCredentials]
    repeat' split
    all_goals
      simp [keyList_obj, keyList_str, keyList_num, keyList_jbool, keyList_null, keyList_strArr, fieldKeys, tokenFields, keyList_selectedUser, keyList_jsonOfOptStr]
  · intro db verify counts bearer
    simp only [meOperation]
    rcases hmw : authMiddleware verify bearer with r | uid
    · simp [authMiddleware_error_keyList verify bearer r hmw]
    · simp only [meHandler]
      repeat' split
      all_goals
        simp [keyList_obj, keyList_str, keyList_num, keyList_jbool, keyList_null, keyList_strArr, fieldKeys, keyList_meUser, keyList_jsonOfOptStr]
  · intro st db verify gen req now refreshToken
    simp only [refreshRequest, refreshHandler]
    repeat' split
    all_goals
      simp [keyList_obj, keyList_str, keyList_num, keyList_jbool, keyList_null, keyList_strArr, fieldKeys, tokenFields, keyList_selectedUser, keyList_jsonOfOptStr]
  · intro db verify cmp hashF vp now bearer body
    simp only [changePasswordOperation]
    rcases hmw : authMiddleware verify bearer with r | uid
    · simp [authMiddleware_error_keyList verify bearer r hmw]
    · simp only [changePasswordHandler]
      repeat' split
      all_goals
        simp [keyList_obj, keyList_str, keyList_strArr, fieldKeys]
  · intro db verify timestamp bearer
    simp only [logoutOperation]
    rcases hmw : authMiddleware verify bearer with r | uid
    · simp [authMiddleware_error_keyList verify bearer r hmw]
    · simp [logoutHandler, keyList_obj, keyList_str, fieldKeys]

/-! ## C6 — lockout after the threshold, reset after the window -/

/-- A sequence of login attempts from one client: each attempt leaves its
mark on the limiter state whatever its outcome. -/
def runLoginAttempts (db : Db) (cmp : String → String → Bool)
    (gen : String → TokenPair) (req : NetRequest)
    (attempts : List (Nat × LoginBody)) (st : LimiterState) : LimiterState :=
  attempts.foldl (fun s a => (loginRequest s db cmp gen req a.1 a.2).2) st

/-- A sequence of registration attempts from one client, threading both
the limiter state and the record store. -/
def runRegisterAttempts (hashF : String → String)
    (vp : String → Bool × List String) (gen : String → TokenPair)
    (req : NetRequest) (attempts : List (Nat × RegisterBody × String))
    (st : LimiterState) (db : Db) : LimiterState × Db :=
  attempts.foldl
    (fun sd a =>
      let r := registerRequest sd.1 sd.2 hashF vp gen a.2.2 req a.1 a.2.1
      (r.2.1, r.2.2))
    (st, db)

theorem lookupCounter_set (st : LimiterState) (key : String) (c : Counter) :
    lookupCounter (setCounter st key c) key = some c := by
  simp [lookupCounter, setCounter]

theorem limiterHit_in_window (cfg : LimiterConfig) (st : LimiterState)
    (key : String) (now n rt : Nat)
    (hc : lookupCounter st key = some ⟨n, rt⟩) (hlt : now < rt) :
    limiterHit cfg st key now = (n + 1, setCounter st key ⟨n + 1, rt⟩) := by
  simp [limiterHit, hc, hlt]

theorem limiterHit_expired (cfg : LimiterConfig) (st : LimiterState)
    (key : String) (now : Nat) (c : Counter)
    (hc : lookupCounter st key = some c) (hge : c.resetTime ≤ now) :
    limiterHit cfg st key now = (1, setCounter st key ⟨1, now + cfg.windowMs⟩) := by
  simp [limiterHit, hc, Nat.not_lt.mpr hge]

theorem limiterHit_fresh (cfg : LimiterConfig) (st : LimiterState)
    (key : String) (now : Nat) (hc : lookupCounter st key = none) :
    limiterHit cfg st key now = (1, setCounter st key ⟨1, now + cfg.windowMs⟩) := by
  simp [limiterHit, hc]

/-- Attempts that all land inside the key's window each add one hit and
leave the window end unchanged. -/
theorem limiterAfter_counts (cfg : LimiterConfig) (key : String)
    (times : List Nat) (st : LimiterState) (n rt : Nat)
    (hc : lookupCounter st key = some ⟨n, rt⟩)
    (ht : ∀ t ∈ times, t < rt) :
    lookupCounter (limiterAfter cfg key times st) key =
      some ⟨n + times.length, rt⟩ := by
  induction times generalizing st n with
  | nil => simpa using hc
  | cons t ts ih =>
    have hlt : t < rt := ht t (List.mem_cons_self _ _)
    have hstep := limiterHit_in_window cfg st key t n rt hc hlt
    have h1 : limiterAfter cfg key (t :: ts) st =
        limiterAfter cfg key ts (setCounter st key ⟨n + 1, rt⟩) := by
      simp [limiterAfter, hstep]
    rw [h1,
      ih (setCounter st key ⟨n + 1, rt⟩) (n + 1) (lookupCounter_set _ _ _)
        (fun t' ht' => ht t' (List.mem_cons_of_mem _ ht'))]
    simp [Counter.mk.injEq]
    omega

theorem loginRequest_state (st : LimiterState) (db : Db)
    (cmp : String → String → Bool) (gen : String → TokenPair)
    (req : NetRequest) (now : Nat) (body : LoginBody) :
    (loginRequest st db cmp gen req now body).2 =
      (limiterHit authLimiterConfig st (authLimiterKey req) now).2 := by
  simp only [loginRequest]
  split <;> rfl

theorem registerRequest_state (st : LimiterState) (db : Db)
    (hashF : String → String) (vp : String → Bool × List String)
    (gen : String → TokenPair) (newId : String) (req : NetRequest)
    (now : Nat) (body : RegisterBody) :
    (registerRequest st db hashF vp gen newId req now body).2.1 =
      (limiterHit registrationLimiterConfig st (registrationLimiterKey req) now).2 := by
  simp only [registerRequest]
  split <;> rfl

theorem runLoginAttempts_eq (db : Db) (cmp : String → String → Bool)
    (gen : String → TokenPair) (req : NetRequest)
    (attempts : List (Nat × LoginBody)) (st : LimiterState) :
    runLoginAttempts db cmp gen req attempts st =
      limiterAfter authLimiterConfig (authLimiterKey req)
        (attempts.map Prod.fst) st := by
  induction attempts generalizing st with
  | nil => rfl
  | cons a as ih =>
    have h1 : runLoginAttempts db cmp gen req (a :: as) st =
        runLoginAttempts db cmp gen req as
          ((limiterHit authLimiterConfig st (authLimiterKey req) a.1).2) := by
      simp [runLoginAttempts, loginRequest_state]
    rw [h1, ih]
    simp [limiterAfter]

theorem runRegisterAttempts_state (hashF : String → String)
    (vp : String → Bool × List String) (gen : String → TokenPair)
    (req : NetRequest) (attempts : List (Nat × RegisterBody × String))
    (st : LimiterState) (db : Db) :
    (runRegisterAttempts hashF vp gen req attempts st db).1 =
      limiterAfter registrationLimiterConfig (registrationLimiterKey req)
        (attempts.map Prod.fst) st := by
  induction attempts generalizing st db with
  | nil => rfl
  | cons a as ih =>
    have h1 : runRegisterAttempts hashF vp gen req (a :: as) st db =
        runRegisterAttempts hashF vp gen req as
          ((limiterHit registrationLimiterConfig st (registrationLimiterKey req) a.1).2)
          ((registerRequest st db hashF vp gen a.2.2 req a.1 a.2.1).2.2) := by
      simp [runRegisterAttempts, registerRequest_state]
    rw [h1, ih]
    simp [limiterAfter]

/-- C6: for every rate-limit key, after exactly the threshold number of
attempts inside the window — 5 for the login family, 3 for registration —
the next attempt for that key is answered 429 with the limiter message no
matter what the credentials or store contents are; and an attempt arriving
once the key's window has ended is evaluated by the normal handler with
the key's counter reset to a single hit in a fresh window. -/
theorem rate_limit_lockout_and_reset :
    (∀ st0 db cmp gen req (b0 : LoginBody) (t0 : Nat)
        (rest : List (Nat × LoginBody)) (t6 : Nat) (body6 : LoginBody),
      lookupCounter st0 (authLimiterKey req) = none →
      rest.length = 4 →
      (∀ a ∈ rest, a.1 < t0 + authLimiterConfig.windowMs) →
      t6 < t0 + authLimiterConfig.windowMs →
      (loginRequest (runLoginAttempts db cmp gen req ((t0, b0) :: rest) st0)
          db cmp gen req t6 body6).1 = ⟨429, .str authLimiterMessage⟩) ∧
    (∀ st db cmp gen req now (body : LoginBody) (c : Counter),
      lookupCounter st (authLimiterKey req) = some c →
      c.resetTime ≤ now →
      loginRequest st db cmp gen req now body =
        (loginHandler db cmp gen body,
         setCounter st (authLimiterKey req) ⟨1, now + authLimiterConfig.windowMs⟩)) ∧
    (∀ st0 db0 hashF vp gen req (b0 : RegisterBody) (id0 : String) (t0 : Nat)
        (rest : List (Nat × RegisterBody × String)) (t4 : Nat)
        (body4 : RegisterBody) (id4 : String) (db4 : Db),
      lookupCounter st0 (registrationLimiterKey req) = none →
      rest.length = 2 →
      (∀ a ∈ rest, a.1 < t0 + registrationLimiterConfig.windowMs) →
      t4 < t0 + registrationLimiterConfig.windowMs →
      (registerRequest
          (runRegisterAttempts hashF vp gen req ((t0, b0, id0) :: rest) st0 db0).1
          db4 hashF vp gen id4 req t4 body4).1 =
        ⟨429, .str registrationLimiterMessage⟩) ∧
    (∀ st db hashF vp gen newId req now (body : RegisterBody) (c : Counter),
      lookupCounter st (registrationLimiterKey req) = some c →
      c.resetTime ≤ now →
      registerRequest st db hashF vp gen newId req now body =
        ((registerHandler db hashF vp gen newId now body).1,
         setCounter st (registrationLimiterKey req)
           ⟨1, now + registrationLimiterConfig.windowMs⟩,
         (registerHandler db hashF vp gen newId now body).2)) := by
  refine ⟨?_, ?_, ?_, ?_⟩
  · intro st0 db cmp gen req b0 t0 rest t6 body6 hfresh hlen hin h6
    have hrun : runLoginAttempts db cmp gen req ((t0, b0) :: rest) st0 =
        limiterAfter authLimiterConfig (authLimiterKey req)
          (t0 :: rest.map Prod.fst) st0 := by
      rw [runLoginAttempts_eq]; rfl
    have hfirst : limiterAfter authLimiterConfig (authLimiterKey req)
        (t0 :: rest.map Prod.fst) st0 =
        limiterAfter authLimiterConfig (authLimiterKey req) (rest.map Prod.fst)
          (setCounter st0 (authLimiterKey req)
            ⟨1, t0 + authLimiterConfig.windowMs⟩) := by
      simp [limiterAfter, limiterHit_fresh _ _ _ _ hfresh]
    have hcount := limiterAfter_counts authLimiterConfig (authLimiterKey req)
      (rest.map Prod.fst)
      (setCounter st0 (authLimiterKey req) ⟨1, t0 + authLimiterConfig.windowMs⟩)
      1 (t0 + authLimiterConfig.windowMs) (lookupCounter_set _ _ _)
      (by
        intro t htm
        rcases List.mem_map.mp htm with ⟨a, ha, rfl⟩
        exact hin a ha)
    rw [hrun, hfirst]
    have hc5 : lookupCounter
        (limiterAfter authLimiterConfig (authLimiterKey req) (rest.map Prod.fst)
          (setCounter st0 (authLimiterKey req) ⟨1, t0 + authLimiterConfig.windowMs⟩))
        (authLimiterKey req) =
        some ⟨authLimiterConfig.maxHits, t0 + authLimiterConfig.windowMs⟩ := by
      rw [hcount]
      simp [hlen, authLimiterConfig]
    simp [loginRequest, limiterHit_in_window _ _ _ _ _ _ hc5 h6]
  · intro st db cmp gen req now body c hc hge
    simp [loginRequest, limiterHit_expired _ _ _ _ _ hc hge, authLimiterConfig]
  · intro st0 db0 hashF vp gen req b0 id0 t0 rest t4 body4 id4 db4 hfresh hlen hin h4
    have hrun : (runRegisterAttempts hashF vp gen req ((t0, b0, id0) :: rest) st0 db0).1 =
        limiterAfter registrationLimiterConfig (registrationLimiterKey req)
          (t0 :: rest.map Prod.fst) st0 := by
      rw [runRegisterAttempts_state]; rfl
    have hfirst : limiterAfter registrationLimiterConfig (registrationLimiterKey req)
        (t0 :: rest.map Prod.fst) st0 =
        limiterAfter registrationLimiterConfig (registrationLimiterKey req)
          (rest.map Prod.fst)
          (setCounter st0 (registrationLimiterKey req)
            ⟨1, t0 + registrationLimiterConfig.windowMs⟩) := by
      simp [limiterAfter, limiterHit_fresh _ _ _ _ hfresh]
    have hcount := limiterAfter_counts registrationLimiterConfig
      (registrationLimiterKey req) (rest.map Prod.fst)
      (setCounter st0 (registrationLimiterKey req)
        ⟨1, t0 + registrationLimiterConfig.windowMs⟩)
      1 (t0 + registrationLimiterConfig.windowMs) (lookupCounter_set _ _ _)
      (by
        intro t htm
        rcases List.mem_map.mp htm with ⟨a, ha, rfl⟩
        exact hin a ha)
    rw [hrun, hfirst]
    have hc3 : lookupCounter
        (limiterAfter registrationLimiterConfig (registrationLimiterKey req)
          (rest.map Prod.fst)
          (setCounter st0 (registrationLimiterKey req)
            ⟨1, t0 + registrationLimiterConfig.windowMs⟩))
        (registrationLimiterKey req) =
        some ⟨registrationLimiterConfig.maxHits,
              t0 + registrationLimiterConfig.windowMs⟩ := by
      rw [hcount]
      simp [hlen, registrationLimiterConfig]
    simp [registerRequest, limiterHit_in_window _ _ _ _ _ _ hc3 h4]
  · intro st db hashF vp gen newId req now body c hc hge
    simp [registerRequest, limiterHit_expired _ _ _ _ _ hc hge,
      registrationLimiterConfig]

/-- C6 witness: a concrete client sends 5 login attempts at instants 0..4,
and its 6th attempt — with correct credentials — is answered 429; a key
whose 15-minute window has ended is evaluated normally with a reset
counter; the registration limiter locks after 3 attempts and resets after
its one-hour window likewise. -/
theorem rate_limit_lockout_and_reset_witness :
    (loginRequest
        (runLoginAttempts [aliceDemo] cmpDemo genDemo ⟨"203.0.113.5", none⟩
          [(0, ⟨some "alice@example.com", some "Str0ng!Pass1"⟩),
           (1, ⟨some "alice@example.com", some "Str0ng!Pass1"⟩),
           (2, ⟨some "alice@example.com", some "Str0ng!Pass1"⟩),
           (3, ⟨some "alice@example.com", some "Str0ng!Pass1"⟩),
           (4, ⟨some "alice@example.com", some "Str0ng!Pass1"⟩)] [])
        [aliceDemo] cmpDemo genDemo ⟨"203.0.113.5", none⟩ 5
        ⟨some "alice@example.com", some "Str0ng!Pass1"⟩).1 =
      ⟨429, .str authLimiterMessage⟩ ∧
    loginRequest [("203.0.113.5", ⟨5, 900000⟩)] [aliceDemo] cmpDemo genDemo
        ⟨"203.0.113.5", none⟩ 900000
        ⟨some "alice@example.com", some "Str0ng!Pass1"⟩ =
      (loginHandler [aliceDemo] cmpDemo genDemo
          ⟨some "alice@example.com", some "Str0ng!Pass1"⟩,
       setCounter [("203.0.113.5", ⟨5, 900000⟩)] "203.0.113.5"
         ⟨1, 900000 + 900000⟩) ∧
    (registerRequest
        (runRegisterAttempts hashDemo validatePasswordSpec genDemo
          ⟨"203.0.113.5", none⟩
          [(0, ⟨some "carol@example.com", some "Str0ng!Pass1", none⟩, "id0"),
           (1, ⟨some "carol@example.com", some "Str0ng!Pass1", none⟩, "id1"),
           (2, ⟨some "carol@example.com", some "Str0ng!Pass1", none⟩, "id2")]
          [] []).1
        [] hashDemo validatePasswordSpec genDemo "id3" ⟨"203.0.113.5", none⟩ 3
        ⟨some "carol@example.com", some "Str0ng!Pass1", none⟩).1 =
      ⟨429, .str registrationLimiterMessage⟩ ∧
    registerRequest [("203.0.113.5", ⟨3, 3600000⟩)] [] hashDemo
        validatePasswordSpec genDemo "id9" ⟨"203.0.113.5", none⟩ 3600000
        ⟨some "carol@example.com", some "Str0ng!Pass1", none⟩ =
      ((registerHandler [] hashDemo validatePasswordSpec genDemo "id9" 3600000
          ⟨some "carol@example.com", some "Str0ng!Pass1", none⟩).1,
       setCounter [("203.0.113.5", ⟨3, 3600000⟩)] "203.0.113.5"
         ⟨1, 3600000 + 3600000⟩,
       (registerHandler [] hashDemo validatePasswordSpec genDemo "id9" 3600000
          ⟨some "carol@example.com", some "Str0ng!Pass1", none⟩).2) :=
  ⟨rate_limit_lockout_and_reset.1 [] [aliceDemo] cmpDemo genDemo
      ⟨"203.0.113.5", none⟩ ⟨some "alice@example.com", some "Str0ng!Pass1"⟩ 0
      [(1, ⟨some "alice@example.com", some "Str0ng!Pass1"⟩),
       (2, ⟨some "alice@example.com", some "Str0ng!Pass1"⟩),
       (3, ⟨some "alice@example.com", some "Str0ng!Pass1"⟩),
       (4, ⟨some "alice@example.com", some "Str0ng!Pass1"⟩)] 5
      ⟨some "alice@example.com", some "Str0ng!Pass1"⟩ rfl rfl (by decide)
      (by decide),
   rate_limit_lockout_and_reset.2.1 [("203.0.113.5", ⟨5, 900000⟩)] [aliceDemo]
      cmpDemo genDemo ⟨"203.0.113.5", none⟩ 900000
      ⟨some "alice@example.com", some "Str0ng!Pass1"⟩ ⟨5, 900000⟩ rfl
      (by decide),
   rate_limit_lockout_and_reset.2.2.1 [] [] hashDemo validatePasswordSpec
      genDemo ⟨"203.0.113.5", none⟩
      ⟨some "carol@example.com", some "Str0ng!Pass1", none⟩ "id0" 0
      [(1, ⟨some "carol@example.com", some "Str0ng!Pass1", none⟩, "id1"),
       (2, ⟨some "carol@example.com", some "Str0ng!Pass1", none⟩, "id2")] 3
      ⟨some "carol@example.com", some "Str0ng!Pass1", none⟩ "id3" [] rfl rfl
      (by decide) (by decide),
   rate_limit_lockout_and_reset.2.2.2 [("203.0.113.5", ⟨3, 3600000⟩)] []
      hashDemo validatePasswordSpec genDemo "id9" ⟨"203.0.113.5", none⟩ 3600000
      ⟨some "carol@example.com", some "Str0ng!Pass1", none⟩ ⟨3, 3600000⟩ rfl
      (by decide)⟩

end SubTracker
